import Mathlib

/-!
# QuickShop payment backend — verification of the reconciliation core

Shallow embedding of the QuickShop backend sources:

* `src/backend/server.js` — Orange/MTN mobile-money orchestration: payment
  creation (`createPaymentRecord`), the `/webhook/orange` and `/webhook/mtn`
  handlers that update the `payments` table and insert rows into `orders`.
* `src/unnamed/part_002` — Stripe card flow: `toSmallestUnit`,
  `/create-payment-intent`, and the `/webhook` Stripe handler that inserts
  an order on `payment_intent.succeeded`.

JS numbers are modelled as `ℚ` (the webhook/control logic does not depend on
floating-point artifacts), JS strings as `String`, optional/absent fields as
`Option`, and JS truthiness of strings (`undefined`/`""` falsy) explicitly.
The Supabase tables are lists of rows; `update ... .eq(k, v)` maps over all
matching rows, `select ... .limit(1)` is `List.find?`, `insert` appends.
`Math.round x` is `round x = ⌊x + 1/2⌋`, which matches JS semantics.
-/

/-- HTTP response: status code plus body, e.g. `res.status(400).send('missing id')`. -/
structure HttpResp where
  code : Nat
  body : String
deriving DecidableEq, Repr

/-- ASCII lowercasing of one character, as JS `toLowerCase` acts on the
ASCII tokens this backend compares against. -/
def jsLowerChar (c : Char) : Char :=
  if 'A' ≤ c ∧ c ≤ 'Z' then Char.ofNat (c.toNat + 32) else c

/-- JS `s.toLowerCase()` (structural over the character list, so that the
kernel can evaluate it on concrete tokens). -/
def jsToLower (s : String) : String := ⟨s.data.map jsLowerChar⟩

/-- JS `Math.round x = ⌊x + 0.5⌋` (half-up, toward `+∞`). -/
def jsRound (q : ℚ) : ℤ := ⌊q + 1/2⌋

/-- JS truthiness for an optional string: `undefined` and `""` are falsy. -/
def jsTruthy (s : Option String) : Bool :=
  match s with
  | none => false
  | some t => !(t == "")

/-- JS `a || b` on optional strings: yields `a` when truthy, else `b`. -/
def jsOrS (a b : Option String) : Option String :=
  if jsTruthy a then a else b

namespace Momo

/-!
## Model of `src/backend/server.js` (Orange / MTN mobile money)
-/

/-- Webhook request body fields read by the handlers:
`body.externalId || body.payment_id || body.reference` and
`body.status || body.result`. -/
structure MomoBody where
  externalId : Option String
  payment_id : Option String
  reference : Option String
  status : Option String
  result : Option String
deriving DecidableEq, Repr

/-- `provider_data` column contents: the simulated provider JSON written at
creation time, or the raw webhook body stored on update. -/
inductive ProviderData where
  | simulated (note : String)
  | webhook (b : MomoBody)
deriving DecidableEq, Repr

/-- A row of the Supabase `payments` table, as written by
`createPaymentRecord` and mutated by the webhook handlers.
(`items` is an opaque payload, never inspected by this code.) -/
structure PaymentRow where
  payment_id : String
  provider : String
  amount : ℚ
  phone : String
  customer_name : String
  items : String
  status : String
  provider_data : Option ProviderData
deriving DecidableEq, Repr

/-- A row of the Supabase `orders` table, shaped as the webhook handlers
insert it. -/
structure OrderRow where
  user_email : String
  items : String
  total : ℚ
  name : String
  address : String
  status : String
deriving DecidableEq, Repr

/-- The two Supabase tables touched by `server.js`. -/
structure DB where
  payments : List PaymentRow
  orders : List OrderRow
deriving DecidableEq, Repr

/-- `createPaymentRecord` (`server.js` lines 51–67): inserts a payment row
with `status: 'pending'`. -/
def createPaymentRecord (pid provider : String) (amount : ℚ)
    (phone name items : String) (raw : Option ProviderData) (db : DB) : DB :=
  { db with payments := db.payments ++
      [{ payment_id := pid, provider := provider, amount := amount,
         phone := phone, customer_name := name, items := items,
         status := "pending", provider_data := raw }] }

/-- `body.externalId || body.payment_id || body.reference`. -/
def momoRef (b : MomoBody) : Option String :=
  jsOrS b.externalId (jsOrS b.payment_id b.reference)

/-- `(body.status || body.result || 'pending').toLowerCase()`. -/
def momoStatusToken (b : MomoBody) : String :=
  jsToLower ((jsOrS b.status (jsOrS b.result (some "pending"))).getD "pending")

/-- `status === 'paid' || status === 'success' || status === 'completed'`. -/
def isPaidEquiv (s : String) : Bool :=
  s == "paid" || s == "success" || s == "completed"

/-- The row update performed by
`supabase.from('payments').update({ status, provider_data }).eq('payment_id', paymentId)`:
every row whose `payment_id` matches gets the new status and raw body. -/
def updateRow (pid tok : String) (body : MomoBody) (p : PaymentRow) : PaymentRow :=
  if p.payment_id == pid then
    { p with status := tok, provider_data := some (.webhook body) }
  else p

/-- The order row inserted by the webhook handlers when the status token is
paid-equivalent (`p.phone || 'guest'`, fixed address `'Mobile money'`,
fulfillment status `'pending'`). -/
def mkMomoOrder (p : PaymentRow) : OrderRow :=
  { user_email := if p.phone == "" then "guest" else p.phone,
    items := p.items,
    total := p.amount,
    name := p.customer_name,
    address := "Mobile money",
    status := "pending" }

/-- `app.post('/webhook/orange')` (`server.js` lines 165–197): resolve the
payment reference (400 `'missing id'` when falsy), unconditionally update
the matching payment rows' `status`/`provider_data`, and when the lowercased
token is paid-equivalent, re-select the row and insert an order; always
responds 200 `'ok'` otherwise. -/
def webhookOrange (db : DB) (body : MomoBody) : DB × HttpResp :=
  match momoRef body with
  | none => (db, ⟨400, "missing id"⟩)
  | some pid =>
    if pid == "" then (db, ⟨400, "missing id"⟩)
    else
      let status := momoStatusToken body
      let payments := db.payments.map (updateRow pid status body)
      let db1 : DB := { db with payments := payments }
      if isPaidEquiv status then
        match payments.find? (fun p => p.payment_id == pid) with
        | some p => ({ db1 with orders := db1.orders ++ [mkMomoOrder p] }, ⟨200, "ok"⟩)
        | none => (db1, ⟨200, "ok"⟩)
      else (db1, ⟨200, "ok"⟩)

/-- `app.post('/webhook/mtn')` (`server.js` lines 199–225): textually the
same logic as the Orange handler. -/
def webhookMtn (db : DB) (body : MomoBody) : DB × HttpResp :=
  match momoRef body with
  | none => (db, ⟨400, "missing id"⟩)
  | some pid =>
    if pid == "" then (db, ⟨400, "missing id"⟩)
    else
      let status := momoStatusToken body
      let payments := db.payments.map (updateRow pid status body)
      let db1 : DB := { db with payments := payments }
      if isPaidEquiv status then
        match payments.find? (fun p => p.payment_id == pid) with
        | some p => ({ db1 with orders := db1.orders ++ [mkMomoOrder p] }, ⟨200, "ok"⟩)
        | none => (db1, ⟨200, "ok"⟩)
      else (db1, ⟨200, "ok"⟩)

end Momo

namespace Card

/-!
## Model of `src/unnamed/part_002` (Stripe card flow)
-/

/-- A cart line item as read by `/create-payment-intent`: only `price` and
`quantity` are inspected (`id`, `title`, `image` are opaque). `none` models
an absent field; a JS string price is modelled by its `parseFloat` value. -/
structure CartItem where
  price : Option ℚ
  quantity : Option ℚ
deriving DecidableEq, Repr

/-- `typeof i.price === "string" ? parseFloat(i.price) : i.price || 0`:
an absent price contributes 0. -/
def effPrice (i : CartItem) : ℚ := i.price.getD 0

/-- `i.quantity ? Number(i.quantity) : 1`: an absent or zero (falsy)
quantity defaults to 1. -/
def effQty (i : CartItem) : ℚ :=
  match i.quantity with
  | none => 1
  | some q => if q = 0 then 1 else q

/-- `cart.reduce((s, i) => s + price * qty, 0)` — total in major units. -/
def cartTotalUSD (cart : List CartItem) : ℚ :=
  cart.foldl (fun s i => s + effPrice i * effQty i) 0

/-- `toSmallestUnit` (`part_002` lines 48–56): multiply by the GHS rate when
the currency (lowercased) is `"ghs"`, then by 100, and `Math.round`. -/
def toSmallestUnit (amount : ℚ) (currency : String) (ghsRate : ℚ) : ℤ :=
  if jsToLower currency == "ghs" then jsRound (amount * ghsRate * 100)
  else jsRound (amount * 100)

/-- Outcome of `/create-payment-intent`: a 400 validation error, or a Stripe
payment intent created with the computed amount and currency. -/
inductive CpiResult where
  | badRequest (msg : String)
  | intent (amount : ℤ) (currency : String)
deriving DecidableEq, Repr

/-- `app.post('/create-payment-intent')` (`part_002` lines 67–108): rejects
with 400 `"Cart is empty"` when the cart is absent, not an array, or empty;
otherwise sums `price × quantity`, converts with `toSmallestUnit`, and
creates the intent with currency `'ghs'` or `'usd'`. -/
def createPaymentIntent (cart : List CartItem) (currency : String)
    (ghsRate : ℚ) : CpiResult :=
  if cart.length = 0 then .badRequest "Cart is empty"
  else
    .intent (toSmallestUnit (cartTotalUSD cart) currency ghsRate)
      (if currency == "ghs" then "ghs" else "usd")

/-- The fields of a Stripe `payment_intent` object that the webhook handler
reads: id, amount (smallest unit), and the metadata written at creation. -/
structure StripeIntent where
  id : String
  amount : ℤ
  metaCart : String
  metaName : String
  metaPhone : String
  metaAddress : String
  metaEmail : String
  metaCurrency : String
deriving DecidableEq, Repr

/-- A Stripe webhook event: its `type` and `data.object` payment intent. -/
structure StripeEvent where
  type : String
  intent : StripeIntent
deriving DecidableEq, Repr

/-- A row of the `orders` table as the Stripe webhook inserts it. -/
structure CardOrderRow where
  user_email : String
  items : String
  total : ℚ
  name : String
  phone : String
  address : String
  status : String
  stripe_payment_intent : String
deriving DecidableEq, Repr

/-- The order row built inside the `payment_intent.succeeded` branch
(`part_002` lines 139–175): `meta.email || 'guest'`, total converted back
to major units (divided by the GHS rate when the metadata currency is
`'ghs'`), fulfillment status `'paid'`, and the intent id stored in
`stripe_payment_intent`. -/
def mkCardOrder (e : StripeEvent) (ghsRate : ℚ) : CardOrderRow :=
  let pi := e.intent
  let currency := if pi.metaCurrency == "" then "usd" else pi.metaCurrency
  let totalMajor : ℚ :=
    if currency == "ghs" then ((pi.amount : ℚ) / 100) / ghsRate
    else (pi.amount : ℚ) / 100
  { user_email := if pi.metaEmail == "" then "guest" else pi.metaEmail,
    items := pi.metaCart,
    total := totalMajor,
    name := pi.metaName,
    phone := pi.metaPhone,
    address := pi.metaAddress,
    status := "paid",
    stripe_payment_intent := pi.id }

/-- The event-dispatch part of the webhook handler: on
`payment_intent.succeeded` insert an order (a Supabase insert error is only
logged, never surfaced), on any other event type do nothing; both
acknowledge with 200. -/
def handleStripeEvent (event : StripeEvent) (ghsRate : ℚ)
    (orders : List CardOrderRow) : List CardOrderRow × HttpResp :=
  if event.type == "payment_intent.succeeded" then
    (orders ++ [mkCardOrder event ghsRate], ⟨200, "received"⟩)
  else (orders, ⟨200, "received"⟩)

/-- `app.post('/webhook')` (`part_002` lines 112–195). `secretConfigured`
models whether `STRIPE_WEBHOOK_SECRET` is set; `sigValid` the outcome of
`stripe.webhooks.constructEvent` (signature verification); `parseOk` the
outcome of `JSON.parse` on the raw body in the unverified fallback path.
When no secret is configured the handler parses and processes the event
without any verification; when a secret is configured a signature failure
is answered with 400 before any processing. -/
def stripeWebhook (secretConfigured sigValid parseOk : Bool)
    (event : StripeEvent) (ghsRate : ℚ)
    (orders : List CardOrderRow) : List CardOrderRow × HttpResp :=
  if !secretConfigured then
    if parseOk then handleStripeEvent event ghsRate orders
    else (orders, ⟨400, "Webhook error"⟩)
  else if !sigValid then (orders, ⟨400, "Webhook Error"⟩)
  else handleStripeEvent event ghsRate orders

end Card

namespace Card

/-- The charge formula as the spec states it (§4.4 / §8 "Amount
computation"): `smallest_unit = round(Σ price × quantity ×
(exchange_rate if alternate currency else 1) × 100)`, where the alternate
currency is the one the code spells `"ghs"`.  A line item's quantity is
its literal value when present and the spec's default 1 when absent
("positive-or-default quantity", interface field `quantity?`); an absent
price contributes 0.  To be compared against the code's
`toSmallestUnit ∘ cartTotalUSD`. -/
def specChargeSmallestUnit (cart : List CartItem) (currency : String)
    (rate : ℚ) : ℤ :=
  round ((cart.map (fun i =>
    i.price.getD 0 * i.quantity.getD 1 *
      (if jsToLower currency == "ghs" then rate else 1) * 100)).sum)

/-- The charge formula with the code's effective quantity semantics:
like `specChargeSmallestUnit`, but a falsy quantity — absent **or 0** —
defaults to 1, exactly as `i.quantity ? Number(i.quantity) : 1` does. -/
def effChargeSmallestUnit (cart : List CartItem) (currency : String)
    (rate : ℚ) : ℤ :=
  round ((cart.map (fun i =>
    effPrice i * effQty i *
      (if jsToLower currency == "ghs" then rate else 1) * 100)).sum)

end Card

/-!
## Concrete fixtures used by witnesses and counterexamples
-/

/-- A ledger holding a single freshly created (pending) Orange payment. -/
def db0 : Momo.DB :=
  ⟨[{ payment_id := "pay_1", provider := "orange", amount := 5000,
      phone := "620000001", customer_name := "Ada", items := "cart",
      status := "pending", provider_data := none }], []⟩

/-- A paid-equivalent provider notification for `pay_1`. -/
def paidBody : Momo.MomoBody := ⟨some "pay_1", none, none, some "paid", none⟩

/-- A ledger where `pay_1` is already finalized as `paid`. -/
def dbPaid : Momo.DB :=
  ⟨[{ payment_id := "pay_1", provider := "orange", amount := 5000,
      phone := "620000001", customer_name := "Ada", items := "cart",
      status := "paid", provider_data := none }], []⟩

/-- A failed-equivalent notification for `pay_1`. -/
def failedBody : Momo.MomoBody := ⟨some "pay_1", none, none, some "failed", none⟩

/-- A notification for `pay_1` carrying an unrecognized status token. -/
def refundBody : Momo.MomoBody :=
  ⟨some "pay_1", none, none, some "REFUNDED", none⟩

/-- A paid notification whose reference matches no payment in the ledger. -/
def unknownRefBody : Momo.MomoBody :=
  ⟨some "pay_x", none, none, some "paid", none⟩

/-- A concrete `payment_intent.succeeded` Stripe event. -/
def succEv : Card.StripeEvent :=
  ⟨"payment_intent.succeeded",
    ⟨"pi_1", 7000, "cart", "Ada", "123", "Street", "ada@example.com", "usd"⟩⟩

/-- The spec's example cart: `[{price:50, quantity:1}, {price:10, quantity:2}]`. -/
def exCart : List Card.CartItem := [⟨some 50, some 1⟩, ⟨some 10, some 2⟩]

/-!
## Theorems
-/

/-- `Math.round` agrees with Mathlib's `round` (both are `⌊x + 1/2⌋`). -/
theorem jsRound_eq_round (q : ℚ) : jsRound q = round q := (round_eq q).symm

namespace Momo

/-- The MTN handler is textually identical to the Orange handler. -/
theorem webhookMtn_eq_orange : webhookMtn = webhookOrange := by
  funext db body
  unfold webhookMtn webhookOrange
  rcases momoRef body with _ | pid <;> rfl

/-- The webhook row update never changes a row's `payment_id`. -/
theorem updateRow_payment_id (pid tok : String) (b : MomoBody) (p : PaymentRow) :
    (updateRow pid tok b p).payment_id = p.payment_id := by
  unfold updateRow; split <;> rfl

/-- A row whose id does not match is untouched by the update. -/
theorem updateRow_not_matching (pid tok : String) (b : MomoBody) (p : PaymentRow)
    (h : p.payment_id ≠ pid) : updateRow pid tok b p = p := by
  unfold updateRow
  simp [h]

/-- The re-select after the update finds a row exactly when the original
table held a row with the given `payment_id`. -/
theorem find_map_updateRow_isSome (l : List PaymentRow) (pid tok : String)
    (b : MomoBody) :
    ((l.map (updateRow pid tok b)).find? (fun p => p.payment_id == pid)).isSome ↔
      ∃ p ∈ l, p.payment_id = pid := by
  induction l with
  | nil => simp
  | cons hd tl ih =>
    by_cases h : hd.payment_id = pid
    · simp [List.find?_cons, updateRow_payment_id, h]
    · simp [List.find?_cons, updateRow_payment_id, h, ih]

/-- Any row of the updated table that carries the referenced `payment_id`
has the freshly written status token. -/
theorem status_of_mem_map_updateRow (l : List PaymentRow) (pid tok : String)
    (b : MomoBody) :
    ∀ p ∈ l.map (updateRow pid tok b), p.payment_id = pid → p.status = tok := by
  intro p hp hid
  rcases List.mem_map.mp hp with ⟨q, hq, rfl⟩
  unfold updateRow at hid ⊢
  by_cases h : q.payment_id = pid
  · simp [h]
  · simp [h] at hid

/-- A paid-equivalent token is never the `'pending'` default. -/
theorem isPaidEquiv_ne_pending (s : String) (h : isPaidEquiv s = true) :
    s ≠ "pending" := by
  intro hs
  rw [hs] at h
  exact absurd h (by decide)

/-- Unfolding of the Orange webhook handler once the payment reference has
resolved to a truthy string. -/
theorem webhookOrange_some (db : DB) (body : MomoBody) (pid : String)
    (href : momoRef body = some pid) (hne : pid ≠ "") :
    webhookOrange db body =
      (let tok := momoStatusToken body
       let payments := db.payments.map (updateRow pid tok body)
       let db1 : DB := { db with payments := payments }
       if isPaidEquiv tok then
         match payments.find? (fun p => p.payment_id == pid) with
         | some p => ({ db1 with orders := db1.orders ++ [mkMomoOrder p] }, ⟨200, "ok"⟩)
         | none => (db1, ⟨200, "ok"⟩)
       else (db1, ⟨200, "ok"⟩)) := by
  unfold webhookOrange
  rw [href]
  simp [hne]

/-- Whatever branch the handler takes, the post-state `payments` table is
the unconditional row update applied to every matching row. -/
theorem webhookOrange_payments (db : DB) (body : MomoBody) (pid : String)
    (href : momoRef body = some pid) (hne : pid ≠ "") :
    ((webhookOrange db body).1).payments =
      db.payments.map (updateRow pid (momoStatusToken body) body) := by
  rw [webhookOrange_some db body pid href hne]
  by_cases hp : isPaidEquiv (momoStatusToken body)
  · simp only [hp, if_true]
    rcases hf : (db.payments.map (updateRow pid (momoStatusToken body) body)).find?
        (fun p => p.payment_id == pid) with _ | p <;> simp [hf]
  · simp [hp]

end Momo

/-- C1: the claim states that replaying the same paid-equivalent
notification N ≥ 1 times yields exactly one `paid` transition and exactly
one order.  The code fails it: each replay re-runs the unconditional insert
into `orders`, so the second delivery of the very same notification creates
a second order row (the handler still answers 200). -/
theorem momo_duplicate_paid_webhook_creates_second_order :
    ((Momo.webhookOrange db0 paidBody).1).orders.length = 1 ∧
    ((Momo.webhookOrange ((Momo.webhookOrange db0 paidBody).1) paidBody).1).orders.length = 2 ∧
    (Momo.webhookOrange ((Momo.webhookOrange db0 paidBody).1) paidBody).2 = ⟨200, "ok"⟩ := by
  decide

/-- C2: the claim states that once a payment is finalized (`paid` or
`failed`) no later notification changes its status.  The code fails it:
the handler updates `status` unconditionally, so a later `failed`
notification overwrites an already-`paid` record. -/
theorem momo_webhook_overwrites_finalized_status :
    dbPaid.payments.map (·.status) = ["paid"] ∧
    ((Momo.webhookOrange dbPaid failedBody).1).payments.map (·.status) = ["failed"] ∧
    (Momo.webhookOrange dbPaid failedBody).2 = ⟨200, "ok"⟩ := by
  decide

/-- C4: an order row is only ever inserted by a handler execution whose
notification carried a paid-equivalent status token, and the status update
(written before the insert within the same execution) leaves every row with
the referenced `payment_id` holding that token — in particular never
`'pending'` at the moment the order is created. -/
theorem momo_webhook_no_premature_materialization (db : Momo.DB)
    (body : Momo.MomoBody)
    (h : ((Momo.webhookOrange db body).1).orders ≠ db.orders) :
    Momo.isPaidEquiv (Momo.momoStatusToken body) = true ∧
    Momo.momoStatusToken body ≠ "pending" ∧
    ∀ p ∈ ((Momo.webhookOrange db body).1).payments,
      some p.payment_id = Momo.momoRef body →
        p.status = Momo.momoStatusToken body := by
  rcases href : Momo.momoRef body with _ | pid
  · simp [Momo.webhookOrange, href] at h
  · by_cases hpid : pid = ""
    · subst hpid
      simp [Momo.webhookOrange, href] at h
    · by_cases hp : Momo.isPaidEquiv (Momo.momoStatusToken body) = true
      · refine ⟨hp, Momo.isPaidEquiv_ne_pending _ hp, ?_⟩
        intro p hpmem hpid2
        rw [Momo.webhookOrange_payments db body pid href hpid] at hpmem
        exact Momo.status_of_mem_map_updateRow _ _ _ _ p hpmem
          (Option.some_inj.mp hpid2)
      · rw [Momo.webhookOrange_some db body pid href hpid] at h
        simp [hp] at h

/-- Witness for C4 at a concrete pending payment and paid notification. -/
theorem momo_webhook_no_premature_materialization_witness :
    (((Momo.webhookOrange db0 paidBody).1).orders ≠ db0.orders) ∧
    (Momo.isPaidEquiv (Momo.momoStatusToken paidBody) = true ∧
     Momo.momoStatusToken paidBody ≠ "pending" ∧
     ∀ p ∈ ((Momo.webhookOrange db0 paidBody).1).payments,
       some p.payment_id = Momo.momoRef paidBody →
         p.status = Momo.momoStatusToken paidBody) :=
  ⟨by decide, momo_webhook_no_premature_materialization db0 paidBody (by decide)⟩

/-- C5 counterexample: a notification whose reference matches no payment
leaves both tables untouched, but the handler acknowledges it with
200 `'ok'`; it is not rejected with a 4xx response as the claim states. -/
theorem momo_unknown_ref_acknowledged_200 :
    Momo.webhookOrange db0 unknownRefBody = (db0, ⟨200, "ok"⟩) ∧
    ¬ (400 ≤ (Momo.webhookOrange db0 unknownRefBody).2.code ∧
        (Momo.webhookOrange db0 unknownRefBody).2.code < 500) := by
  decide

/-- C5 (amended): a notification whose (truthy) reference matches no
payment in the ledger creates no record and mutates no record — the
database is returned unchanged — and the handler answers 200 `'ok'`
rather than a 4xx rejection. -/
theorem momo_unknown_ref_no_mutation (db : Momo.DB) (body : Momo.MomoBody)
    (pid : String) (href : Momo.momoRef body = some pid) (hne : pid ≠ "")
    (hunk : ∀ p ∈ db.payments, p.payment_id ≠ pid) :
    Momo.webhookOrange db body = (db, ⟨200, "ok"⟩) := by
  rw [Momo.webhookOrange_some db body pid href hne]
  have hmap : db.payments.map
      (Momo.updateRow pid (Momo.momoStatusToken body) body) = db.payments := by
    have h1 : ∀ p ∈ db.payments,
        Momo.updateRow pid (Momo.momoStatusToken body) body p = id p :=
      fun p hp => Momo.updateRow_not_matching _ _ _ _ (hunk p hp)
    rw [List.map_congr_left h1, List.map_id]
  have hfind : db.payments.find? (fun p => p.payment_id == pid) = none :=
    List.find?_eq_none.mpr (fun p hp => by simp [hunk p hp])
  by_cases hp : Momo.isPaidEquiv (Momo.momoStatusToken body) = true <;>
    simp [hmap, hfind, hp]

/-- Witness for C5's amended statement on a concrete ledger. -/
theorem momo_unknown_ref_no_mutation_witness :
    (Momo.momoRef unknownRefBody = some "pay_x" ∧ "pay_x" ≠ "" ∧
      ∀ p ∈ db0.payments, p.payment_id ≠ "pay_x") ∧
    Momo.webhookOrange db0 unknownRefBody = (db0, ⟨200, "ok"⟩) :=
  ⟨⟨by decide, by decide, by decide⟩,
   momo_unknown_ref_no_mutation db0 unknownRefBody "pay_x"
     (by decide) (by decide) (by decide)⟩

/-- C9 counterexample: the webhook stores the lowercased provider token
verbatim, so a notification carrying `'REFUNDED'` leaves a payment whose
status is `'refunded'` — none of the four enum values. -/
theorem momo_webhook_stores_non_enum_status :
    ((Momo.webhookOrange db0 refundBody).1).payments.map (·.status) =
      ["refunded"] ∧
    ("refunded" ≠ "pending" ∧ "refunded" ≠ "paid" ∧
      "refunded" ≠ "failed" ∧ "refunded" ≠ "unknown") := by
  decide

/-- C9 (amended): a payment's status is `'pending'` when the record is
created, and a webhook overwrites it with the lowercased provider token
verbatim — an arbitrary string, not a member of a four-value enum. -/
theorem momo_status_pending_or_lowercased_token (db : Momo.DB)
    (body : Momo.MomoBody) (pid : String)
    (href : Momo.momoRef body = some pid) (hne : pid ≠ "") :
    (∀ p ∈ ((Momo.webhookOrange db body).1).payments,
       p.payment_id = pid → p.status = Momo.momoStatusToken body) ∧
    ∀ (pid2 prov : String) (amount : ℚ) (phone nm items : String)
      (raw : Option Momo.ProviderData) (db2 : Momo.DB),
      ((Momo.createPaymentRecord pid2 prov amount phone nm items raw
          db2).payments.map (·.status)) =
        db2.payments.map (·.status) ++ ["pending"] := by
  constructor
  · intro p hp hid
    rw [Momo.webhookOrange_payments db body pid href hne] at hp
    exact Momo.status_of_mem_map_updateRow _ _ _ _ p hp hid
  · intro pid2 prov amount phone nm items raw db2
    simp [Momo.createPaymentRecord]

/-- Witness for C9's amended statement: the `'REFUNDED'` notification
writes exactly the lowercased token. -/
theorem momo_status_pending_or_lowercased_token_witness :
    (Momo.momoRef refundBody = some "pay_1" ∧ "pay_1" ≠ "") ∧
    (∀ p ∈ ((Momo.webhookOrange db0 refundBody).1).payments,
       p.payment_id = "pay_1" → p.status = Momo.momoStatusToken refundBody) :=
  ⟨⟨by decide, by decide⟩,
   (momo_status_pending_or_lowercased_token db0 refundBody "pay_1"
     (by decide) (by decide)).1⟩

/-- C10: with a truthy reference, an order insert happens exactly when the
reference correlates to an existing payment row and the lowercased
status/result token is `'paid'`, `'success'` or `'completed'`; any other
token (including the `'pending'` default used when both fields are absent)
only rewrites the matching rows' `status`/`provider_data` and inserts
nothing. -/
theorem momo_webhook_order_insert_characterization (db : Momo.DB)
    (body : Momo.MomoBody) (pid : String)
    (href : Momo.momoRef body = some pid) (hne : pid ≠ "") :
    (((Momo.webhookOrange db body).1).orders.length = db.orders.length + 1 ↔
      Momo.isPaidEquiv (Momo.momoStatusToken body) = true ∧
        ∃ p ∈ db.payments, p.payment_id = pid) ∧
    (Momo.isPaidEquiv (Momo.momoStatusToken body) = false →
      ((Momo.webhookOrange db body).1).orders = db.orders) ∧
    ((Momo.webhookOrange db body).1).payments =
      db.payments.map (Momo.updateRow pid (Momo.momoStatusToken body) body) ∧
    (body.status = none ∧ body.result = none →
      Momo.momoStatusToken body = "pending") := by
  refine ⟨?_, ?_, Momo.webhookOrange_payments db body pid href hne, ?_⟩
  · rw [Momo.webhookOrange_some db body pid href hne]
    by_cases hp : Momo.isPaidEquiv (Momo.momoStatusToken body) = true
    · rcases hf : (db.payments.map
          (Momo.updateRow pid (Momo.momoStatusToken body) body)).find?
          (fun p => p.payment_id == pid) with _ | p
      · have hnex : ¬ ∃ p ∈ db.payments, p.payment_id = pid := by
          rw [← Momo.find_map_updateRow_isSome db.payments pid
            (Momo.momoStatusToken body) body, hf]
          simp
        simp [hp, hf, hnex]
      · have hex : ∃ p ∈ db.payments, p.payment_id = pid := by
          rw [← Momo.find_map_updateRow_isSome db.payments pid
            (Momo.momoStatusToken body) body, hf]
          simp
        simp [hp, hf, hex]
    · simp [hp]
  · intro hp
    rw [Momo.webhookOrange_some db body pid href hne]
    simp [hp]
  · rintro ⟨h1, h2⟩
    simp only [Momo.momoStatusToken, h1, h2, jsOrS, jsTruthy]
    decide

/-- Witness for C10 on the concrete pending payment and paid notification. -/
theorem momo_webhook_order_insert_characterization_witness :
    (Momo.momoRef paidBody = some "pay_1" ∧ "pay_1" ≠ "") ∧
    ((Momo.webhookOrange db0 paidBody).1).payments =
      db0.payments.map
        (Momo.updateRow "pay_1" (Momo.momoStatusToken paidBody) paidBody) :=
  ⟨⟨by decide, by decide⟩,
   (momo_webhook_order_insert_characterization db0 paidBody "pay_1"
     (by decide) (by decide)).2.2.1⟩


namespace Card

/-- Folding the per-item accumulation from any seed equals seed plus the
sum of the mapped line totals. -/
theorem foldl_lineTotal (l : List CartItem) (a : ℚ) :
    l.foldl (fun s i => s + effPrice i * effQty i) a =
      a + (l.map fun i => effPrice i * effQty i).sum := by
  induction l generalizing a with
  | nil => simp
  | cons hd tl ih => simp [ih, add_assoc]

/-- The cart total is the sum of `effPrice × effQty` over the line items. -/
theorem cartTotalUSD_eq_sum (cart : List CartItem) :
    cartTotalUSD cart = (cart.map fun i => effPrice i * effQty i).sum := by
  simpa using foldl_lineTotal cart 0

end Card

/-- C3: the claim states materialization is guarded by `order_id = null ∧
status = paid`, sets `PaymentRecord.order_id` on success, and happens at
most once.  No such guard or `order_id` write exists: replaying the same
`payment_intent.succeeded` event makes the Stripe webhook insert a second
order row (and the mobile-money handlers likewise re-insert, see C1). -/
theorem stripe_duplicate_succeeded_creates_second_order :
    (Card.stripeWebhook true true true succEv 15 []).1.length = 1 ∧
    (Card.stripeWebhook true true true succEv 15
        (Card.stripeWebhook true true true succEv 15 []).1).1.length = 2 ∧
    (Card.stripeWebhook true true true succEv 15
        (Card.stripeWebhook true true true succEv 15 []).1).2 =
      ⟨200, "received"⟩ := by
  decide

/-- C6 counterexample: with no webhook secret configured, verification is
impossible, yet the handler parses the body and fully processes it — an
order is inserted and the response is 200.  Verification does not fail
closed as the claim states. -/
theorem stripe_unverified_notification_processed :
    (Card.stripeWebhook false false true succEv 15 []).1.length = 1 ∧
    (Card.stripeWebhook false false true succEv 15 []).2 =
      ⟨200, "received"⟩ := by
  decide

/-- C6 (amended): only when a webhook secret is configured does a
signature-verification failure reject the notification — with 400, before
any event processing, leaving the order table untouched; with no secret
configured the handler processes unverified bodies, and the mobile-money
handlers never verify at all. -/
theorem stripe_bad_signature_fails_closed (po : Bool) (e : Card.StripeEvent)
    (r : ℚ) (os : List Card.CardOrderRow) :
    Card.stripeWebhook true false po e r os = (os, ⟨400, "Webhook Error"⟩) :=
  rfl

/-- C7 counterexample: the cart `[{price:10, quantity:0}]` is non-empty
and interface-legal, yet the code charges it as quantity 1 (a falsy
quantity defaults to 1), producing 1000, while the claim's formula
`round(Σ price × quantity × … × 100)` gives 0 — so the claimed equation
fails on an in-scope cart. -/
theorem createPaymentIntent_quantity_zero_diverges :
    Card.createPaymentIntent [⟨some 10, some 0⟩] "usd" 15 =
      .intent 1000 "usd" ∧
    Card.specChargeSmallestUnit [⟨some 10, some 0⟩] "usd" 15 = 0 ∧
    (1000 : ℤ) ≠ 0 := by
  refine ⟨?_, ?_, by decide⟩
  · have hu : (jsToLower "usd" == "ghs") = false := by decide
    have hu2 : (("usd" : String) == "ghs") = false := by decide
    simp only [Card.createPaymentIntent, Card.toSmallestUnit,
      Card.cartTotalUSD, Card.effPrice, Card.effQty, hu, hu2]
    norm_num [jsRound]
  · have hu : (jsToLower "usd" == "ghs") = false := by decide
    simp only [Card.specChargeSmallestUnit, hu]
    norm_num

/-- C7 (amended): for every non-empty cart, checkout charges
`round(Σ effPrice × effQty × (rate if alternate else 1) × 100)`, where an
absent price contributes 0 and a falsy quantity (absent or 0) defaults
to 1; on the spec's example cart this is 7000 for `'usd'` and 105000 for
`'ghs'` with rate 15. -/
theorem createPaymentIntent_effective_charge_formula :
    (∀ (cart : List Card.CartItem) (currency : String) (rate : ℚ),
      cart ≠ [] →
      Card.createPaymentIntent cart currency rate =
        .intent (Card.effChargeSmallestUnit cart currency rate)
          (if currency == "ghs" then "ghs" else "usd")) ∧
    Card.createPaymentIntent exCart "usd" 15 = .intent 7000 "usd" ∧
    Card.createPaymentIntent exCart "ghs" 15 = .intent 105000 "ghs" := by
  refine ⟨?_, ?_, ?_⟩
  · intro cart currency rate hne
    have hlen : ¬ cart.length = 0 := by
      simpa [List.length_eq_zero] using hne
    have key : ∀ f : ℚ,
        (cart.map fun i =>
          Card.effPrice i * Card.effQty i * f * 100).sum =
          Card.cartTotalUSD cart * (f * 100) := by
      intro f
      have h1 : (cart.map fun i =>
            Card.effPrice i * Card.effQty i * f * 100) =
          cart.map fun i => (Card.effPrice i * Card.effQty i) * (f * 100) := by
        apply List.map_congr_left
        intro i hi
        ring
      rw [h1, List.sum_map_mul_right, Card.cartTotalUSD_eq_sum]
    simp only [Card.createPaymentIntent, hlen, if_false]
    congr 1
    simp only [Card.toSmallestUnit, Card.effChargeSmallestUnit]
    by_cases hgh : (jsToLower currency == "ghs") = true
    · simp only [hgh, if_true, jsRound_eq_round, key rate]
      congr 1; ring
    · simp only [Bool.not_eq_true] at hgh
      simp only [hgh, Bool.false_eq_true, if_false, jsRound_eq_round, key 1]
      congr 1; ring
  · have hu : (jsToLower "usd" == "ghs") = false := by decide
    have hu2 : (("usd" : String) == "ghs") = false := by decide
    simp only [Card.createPaymentIntent, exCart, Card.toSmallestUnit,
      Card.cartTotalUSD, Card.effPrice, Card.effQty, hu, hu2]
    norm_num [jsRound]
  · have hg : (jsToLower "ghs" == "ghs") = true := by decide
    have hg2 : (("ghs" : String) == "ghs") = true := by decide
    simp only [Card.createPaymentIntent, exCart, Card.toSmallestUnit,
      Card.cartTotalUSD, Card.effPrice, Card.effQty, hg, hg2]
    norm_num [jsRound]

/-- Witness for C7's amended hypothesized conjunct on the spec's example
cart. -/
theorem createPaymentIntent_effective_charge_formula_witness :
    exCart ≠ [] ∧
    Card.createPaymentIntent exCart "ghs" 15 =
      .intent (Card.effChargeSmallestUnit exCart "ghs" 15)
        (if ("ghs" : String) == "ghs" then "ghs" else "usd") :=
  ⟨by decide,
   createPaymentIntent_effective_charge_formula.1 exCart "ghs" 15 (by decide)⟩

/-- C8 counterexample: a cart whose single item has a non-positive price
(price 0) is not rejected — the handler proceeds and creates an intent for
amount 0, so "rejected iff some item lacks a positive price" fails. -/
theorem createPaymentIntent_accepts_nonpositive_price :
    Card.createPaymentIntent [⟨some 0, some 1⟩] "usd" 15 = .intent 0 "usd" := by
  have hu : (jsToLower "usd" == "ghs") = false := by decide
  have hu2 : (("usd" : String) == "ghs") = false := by decide
  simp only [Card.createPaymentIntent, Card.toSmallestUnit,
    Card.cartTotalUSD, Card.effPrice, Card.effQty, hu, hu2]
  norm_num [jsRound]

/-- C8 (amended): the checkout validates only emptiness: it returns the
400 `"Cart is empty"` validation error — creating no payment intent — if
and only if the cart is empty; line-item prices and quantities are not
validated. -/
theorem createPaymentIntent_rejects_iff_cart_empty
    (cart : List Card.CartItem) (currency : String) (rate : ℚ) :
    (∃ msg, Card.createPaymentIntent cart currency rate =
        .badRequest msg) ↔ cart = [] := by
  rcases cart with _ | ⟨hd, tl⟩
  · simp [Card.createPaymentIntent]
  · simp [Card.createPaymentIntent]
